import Mathlib

/-!
Verification development for the `go_auth` repository.

The development shallowly embeds the three subsystems of the repository:

* the signature helpers of `internal/crypto` (hash-then-sign over an external
  RSA/SHA-256 primitive, base64 transport encoding);
* the authentication protocol client of `pkg/authclient` (construction,
  challenge request, signature submission, bounded retry loop);
* the bearer-token HTTP middleware of `pkg/authmiddleware`.

Network interaction is modelled by an oracle `World` that scripts the
verifier's response to the i-th challenge request and the i-th verify
request, and records the observable effects of a run (requests issued,
sleeps performed).  Go machine integers (`int`, `time.Duration`) are
modelled as `Int`; Go maps with string keys are modelled as association
lists read through `mapLookup`.
-/

namespace GoAuth

/-! ### Base64 (model of Go `encoding/base64` StdEncoding)

Bytes are `Nat` values below 256.  `base64Decode` ignores carriage returns
and line feeds, requires the input length to be a multiple of four and
allows padding only in the final quantum, as Go's `StdEncoding.DecodeString`
does. -/

def base64Alphabet : List Char :=
  "ABCDEFGHIJKLMNOPQRSTUVWXYZabcdefghijklmnopqrstuvwxyz0123456789+/".toList

def sixToChar (n : Nat) : Char := base64Alphabet.getD n 'A'

def charToSix (c : Char) : Option Nat := base64Alphabet.findIdx? (fun d => d = c)

def base64EncodeList : List Nat → List Char
  | [] => []
  | [b0] => [sixToChar (b0 / 4), sixToChar (b0 % 4 * 16), '=', '=']
  | [b0, b1] => [sixToChar (b0 / 4), sixToChar (b0 % 4 * 16 + b1 / 16), sixToChar (b1 % 16 * 4), '=']
  | b0 :: b1 :: b2 :: rest =>
    sixToChar (b0 / 4) :: sixToChar (b0 % 4 * 16 + b1 / 16) ::
      sixToChar (b1 % 16 * 4 + b2 / 64) :: sixToChar (b2 % 64) :: base64EncodeList rest

def base64DecodeList : List Char → Option (List Nat)
  | [] => some []
  | c0 :: c1 :: c2 :: c3 :: rest =>
    match charToSix c0, charToSix c1 with
    | some n0, some n1 =>
      if c2 = '=' then
        if c3 = '=' ∧ rest = [] then some [n0 * 4 + n1 / 16] else none
      else
        match charToSix c2 with
        | some n2 =>
          if c3 = '=' then
            if rest = [] then some [n0 * 4 + n1 / 16, n1 % 16 * 16 + n2 / 4] else none
          else
            match charToSix c3 with
            | some n3 =>
              match base64DecodeList rest with
              | some bs => some ((n0 * 4 + n1 / 16) :: (n1 % 16 * 16 + n2 / 4) :: (n2 % 4 * 64 + n3) :: bs)
              | none => none
            | none => none
        | none => none
    | _, _ => none
  | _ => none

def base64Encode (bs : List Nat) : String := String.mk (base64EncodeList bs)

def base64Decode (s : String) : Option (List Nat) :=
  base64DecodeList (s.toList.filter (fun c => ¬(c = '\r' ∨ c = '\n')))

theorem charToSix_sixToChar : ∀ n < 64, charToSix (sixToChar n) = some n := by decide

theorem sixToChar_spec : ∀ n < 64,
    sixToChar n ≠ '=' ∧ sixToChar n ≠ '\r' ∧ sixToChar n ≠ '\n' := by decide

theorem base64EncodeList_chars :
    ∀ bs : List Nat, (∀ b ∈ bs, b < 256) →
      ∀ c ∈ base64EncodeList bs, c ≠ '\r' ∧ c ≠ '\n'
  | [], _ => by intro c hc; simp [base64EncodeList] at hc
  | [b0], h => by
    have hb : b0 < 256 := h b0 (by simp)
    intro c hc
    simp only [base64EncodeList, List.mem_cons, List.not_mem_nil, or_false] at hc
    rcases hc with rfl | rfl | rfl | rfl
    · exact ⟨(sixToChar_spec _ (by omega)).2.1, (sixToChar_spec _ (by omega)).2.2⟩
    · exact ⟨(sixToChar_spec _ (by omega)).2.1, (sixToChar_spec _ (by omega)).2.2⟩
    · exact ⟨by decide, by decide⟩
    · exact ⟨by decide, by decide⟩
  | [b0, b1], h => by
    have hb0 : b0 < 256 := h b0 (by simp)
    have hb1 : b1 < 256 := h b1 (by simp)
    intro c hc
    simp only [base64EncodeList, List.mem_cons, List.not_mem_nil, or_false] at hc
    rcases hc with rfl | rfl | rfl | rfl
    · exact ⟨(sixToChar_spec _ (by omega)).2.1, (sixToChar_spec _ (by omega)).2.2⟩
    · exact ⟨(sixToChar_spec _ (by omega)).2.1, (sixToChar_spec _ (by omega)).2.2⟩
    · exact ⟨(sixToChar_spec _ (by omega)).2.1, (sixToChar_spec _ (by omega)).2.2⟩
    · exact ⟨by decide, by decide⟩
  | b0 :: b1 :: b2 :: rest, h => by
    have hb0 : b0 < 256 := h b0 (by simp)
    have hb1 : b1 < 256 := h b1 (by simp)
    have hb2 : b2 < 256 := h b2 (by simp)
    intro c hc
    simp only [base64EncodeList, List.mem_cons] at hc
    rcases hc with rfl | rfl | rfl | rfl | hc
    · exact ⟨(sixToChar_spec _ (by omega)).2.1, (sixToChar_spec _ (by omega)).2.2⟩
    · exact ⟨(sixToChar_spec _ (by omega)).2.1, (sixToChar_spec _ (by omega)).2.2⟩
    · exact ⟨(sixToChar_spec _ (by omega)).2.1, (sixToChar_spec _ (by omega)).2.2⟩
    · exact ⟨(sixToChar_spec _ (by omega)).2.1, (sixToChar_spec _ (by omega)).2.2⟩
    · exact base64EncodeList_chars rest (fun b hb => h b (by simp [hb])) c hc

theorem base64DecodeList_encodeList :
    ∀ bs : List Nat, (∀ b ∈ bs, b < 256) →
      base64DecodeList (base64EncodeList bs) = some bs
  | [], _ => rfl
  | [b0], h => by
    have hb : b0 < 256 := h b0 (by simp)
    simp only [base64EncodeList, base64DecodeList,
      charToSix_sixToChar _ (show b0 / 4 < 64 by omega),
      charToSix_sixToChar _ (show b0 % 4 * 16 < 64 by omega)]
    simp only [if_true, and_self, eq_self_iff_true, Option.some.injEq, List.cons.injEq,
      and_true]
    omega
  | [b0, b1], h => by
    have hb0 : b0 < 256 := h b0 (by simp)
    have hb1 : b1 < 256 := h b1 (by simp)
    have h2 : b1 % 16 * 4 < 64 := by omega
    simp only [base64EncodeList, base64DecodeList,
      charToSix_sixToChar _ (show b0 / 4 < 64 by omega),
      charToSix_sixToChar _ (show b0 % 4 * 16 + b1 / 16 < 64 by omega),
      charToSix_sixToChar _ h2]
    rw [if_neg (sixToChar_spec _ h2).1]
    simp only [if_true, and_self, eq_self_iff_true, Option.some.injEq, List.cons.injEq,
      and_true]
    constructor
    · omega
    · omega
  | b0 :: b1 :: b2 :: rest, h => by
    have hb0 : b0 < 256 := h b0 (by simp)
    have hb1 : b1 < 256 := h b1 (by simp)
    have hb2 : b2 < 256 := h b2 (by simp)
    have h2 : b1 % 16 * 4 + b2 / 64 < 64 := by omega
    have h3 : b2 % 64 < 64 := by omega
    have ih := base64DecodeList_encodeList rest (fun b hb => h b (by simp [hb]))
    simp only [base64EncodeList, base64DecodeList,
      charToSix_sixToChar _ (show b0 / 4 < 64 by omega),
      charToSix_sixToChar _ (show b0 % 4 * 16 + b1 / 16 < 64 by omega),
      charToSix_sixToChar _ h2, charToSix_sixToChar _ h3]
    rw [if_neg (sixToChar_spec _ h2).1, if_neg (sixToChar_spec _ h3).1]
    rw [ih]
    simp only [Option.some.injEq, List.cons.injEq]
    refine ⟨by omega, by omega, by omega, trivial⟩

theorem base64_roundtrip (bs : List Nat) (h : ∀ b ∈ bs, b < 256) :
    base64Decode (base64Encode bs) = some bs := by
  unfold base64Decode base64Encode
  have hfilter : (String.mk (base64EncodeList bs)).toList.filter
      (fun c => ¬(c = '\r' ∨ c = '\n')) = base64EncodeList bs := by
    have : (String.mk (base64EncodeList bs)).toList = base64EncodeList bs := rfl
    rw [this]
    apply List.filter_eq_self.mpr
    intro c hc
    have := base64EncodeList_chars bs h c hc
    simp [this.1, this.2]
  rw [hfilter]
  exact base64DecodeList_encodeList bs h

theorem base64Encode_ne_empty (bs : List Nat) (h : bs ≠ []) : base64Encode bs ≠ "" := by
  intro hc
  have hdata : base64EncodeList bs = [] := congrArg String.toList hc
  match bs, h with
  | [b0], _ => simp [base64EncodeList] at hdata
  | [b0, b1], _ => simp [base64EncodeList] at hdata
  | b0 :: b1 :: b2 :: rest, _ => simp [base64EncodeList] at hdata

/-! ### Signature engine (model of `internal/crypto`)

The repository's code delegates hashing and the actual RSA operations to
the platform libraries (`crypto/sha256`, `crypto/rsa`).  These external
primitives are modelled as a parameter `SigScheme`; key material is
symbolic (a key identity).  PKCS#1 v1.5 signing is deterministic, so
`sign` is a function.  The properties the platform guarantees
(correctness, unforgeability under a matching key pair, byte-valued and
non-empty signatures, collision-free digests) are stated as explicit
contracts and assumed only where a claim depends on them. -/

structure RSAPrivateKey where
  keyId : Nat
deriving DecidableEq

structure RSAPublicKey where
  keyId : Nat
deriving DecidableEq

structure SigScheme where
  hash : String → List Nat
  sign : RSAPrivateKey → List Nat → List Nat
  verify : RSAPublicKey → List Nat → List Nat → Bool

/-- The public key is the one matching the private key. -/
def ValidKeyPair (priv : RSAPrivateKey) (pub : RSAPublicKey) : Prop :=
  priv.keyId = pub.keyId

/-- Verification accepts a signature produced with the matching private key. -/
def SigScheme.Correct (S : SigScheme) : Prop :=
  ∀ priv pub, ValidKeyPair priv pub → ∀ d, S.verify pub d (S.sign priv d) = true

/-- A signature over one digest never verifies against a different digest. -/
def SigScheme.Unforgeable (S : SigScheme) : Prop :=
  ∀ priv pub, ValidKeyPair priv pub → ∀ s t : String,
    S.verify pub (S.hash t) (S.sign priv (S.hash s)) = true → S.hash t = S.hash s

/-- Distinct messages have distinct digests (collision freeness of the
idealized hash). -/
def SigScheme.HashInjective (S : SigScheme) : Prop :=
  Function.Injective S.hash

/-- Raw signatures are byte sequences. -/
def SigScheme.SignBytes (S : SigScheme) : Prop :=
  ∀ k d, ∀ b ∈ S.sign k d, b < 256

/-- Raw signatures are never empty (an RSA signature has the key's size). -/
def SigScheme.SignNonempty (S : SigScheme) : Prop :=
  ∀ k d, S.sign k d ≠ []

/-- Error classes of the signature engine.  They correspond one to one to
the error strings of `internal/crypto`: `invalidKey` to "private key is
nil" and "public key is nil", `emptyInput` to "challenge is empty",
`emptySignature` to "signature is empty", `malformedSignature` to
"failed to decode signature", `signatureMismatch` to "signature
verification failed". -/
inductive CryptoErr
  | invalidKey
  | emptyInput
  | emptySignature
  | malformedSignature
  | signatureMismatch
deriving DecidableEq

/-- Model of `crypto.SignChallenge`: nil-key check, empty-challenge check,
SHA-256 digest, RSASSA-PKCS1-v1_5 signature, base64 encoding. -/
def cryptoSignChallenge (S : SigScheme) (privateKey : Option RSAPrivateKey)
    (challenge : String) : Except CryptoErr String :=
  match privateKey with
  | none => .error .invalidKey
  | some pk =>
    if challenge = "" then .error .emptyInput
    else .ok (base64Encode (S.sign pk (S.hash challenge)))

/-- Model of `crypto.VerifySignature`: nil-key check, empty-challenge
check, empty-signature check, base64 decoding, SHA-256 digest, RSA
verification. -/
def cryptoVerifySignature (S : SigScheme) (publicKey : Option RSAPublicKey)
    (challenge : String) (signatureBase64 : String) : Except CryptoErr Unit :=
  match publicKey with
  | none => .error .invalidKey
  | some pk =>
    if challenge = "" then .error .emptyInput
    else if signatureBase64 = "" then .error .emptySignature
    else
      match base64Decode signatureBase64 with
      | none => .error .malformedSignature
      | some signature =>
        if S.verify pk (S.hash challenge) signature then .ok ()
        else .error .signatureMismatch

/-! ### A concrete scheme satisfying the contracts

Used to instantiate the conditional theorems on concrete inputs.  A
character is packed as three little-endian base-256 digits; a digest is
the packed string with a leading marker byte; a signature is the key
identity followed by the digest reduced to bytes. -/

def packL : List Char → List Nat
  | [] => []
  | c :: cs => c.toNat % 256 :: c.toNat / 256 % 256 :: c.toNat / 65536 :: packL cs

def unpackL : List Nat → Option (List Char)
  | [] => some []
  | a :: b :: d :: rest => (unpackL rest).map (fun cs => Char.ofNat (a + 256 * b + 65536 * d) :: cs)
  | _ => none

theorem unpackL_packL : ∀ cs : List Char, unpackL (packL cs) = some cs
  | [] => rfl
  | c :: cs => by
    have ih := unpackL_packL cs
    have hn : c.toNat % 256 + 256 * (c.toNat / 256 % 256) + 65536 * (c.toNat / 65536) = c.toNat := by
      omega
    simp only [packL, unpackL, ih, Option.map_some]
    rw [hn, Char.ofNat_toNat]
    rfl

theorem packL_injective : Function.Injective packL := by
  intro a b hab
  have := congrArg unpackL hab
  rw [unpackL_packL, unpackL_packL] at this
  exact Option.some.inj this

theorem packL_bytes : ∀ cs : List Char, ∀ b ∈ packL cs, b < 256
  | [] => by intro b hb; simp [packL] at hb
  | c :: cs => by
    intro b hb
    have hc : c.toNat < 1114112 := by
      have := c.valid
      unfold Char.toNat
      rcases this with h | ⟨h1, h2⟩ <;> omega
    simp only [packL, List.mem_cons] at hb
    rcases hb with rfl | rfl | rfl | hb
    · omega
    · omega
    · omega
    · exact packL_bytes cs b hb

def toyHash (s : String) : List Nat := 1 :: packL s.toList

def toySign (k : RSAPrivateKey) (d : List Nat) : List Nat :=
  k.keyId % 256 :: d.map (fun b => b % 256)

def toyVerify (k : RSAPublicKey) (d : List Nat) (s : List Nat) : Bool :=
  s = k.keyId % 256 :: d.map (fun b => b % 256)

def toyScheme : SigScheme := { hash := toyHash, sign := toySign, verify := toyVerify }

theorem toyHash_bytes (s : String) : ∀ b ∈ toyHash s, b < 256 := by
  intro b hb
  simp only [toyHash, List.mem_cons] at hb
  rcases hb with rfl | hb
  · omega
  · exact packL_bytes s.toList b hb

theorem map_mod_of_bytes : ∀ l : List Nat, (∀ b ∈ l, b < 256) → l.map (fun b => b % 256) = l
  | [], _ => rfl
  | b :: l, h => by
    have hb : b < 256 := h b (by simp)
    simp only [List.map_cons, Nat.mod_eq_of_lt hb, List.cons.injEq, true_and]
    exact map_mod_of_bytes l (fun x hx => h x (by simp [hx]))

theorem toyScheme_correct : toyScheme.Correct := by
  intro priv pub hpair d
  simp only [toyScheme, SigScheme.verify, toyVerify, toySign, ValidKeyPair] at *
  rw [hpair]
  simp

theorem toyScheme_unforgeable : toyScheme.Unforgeable := by
  intro priv pub hpair s t hver
  simp only [toyScheme, SigScheme.verify, SigScheme.sign, SigScheme.hash, toyVerify,
    toySign, decide_eq_true_eq, List.cons.injEq] at hver
  have h2 := hver.2
  simp only [map_mod_of_bytes _ (toyHash_bytes s), map_mod_of_bytes _ (toyHash_bytes t)] at h2
  simpa [toyScheme] using h2.symm

theorem toyScheme_hashInjective : toyScheme.HashInjective := by
  intro a b hab
  simp only [toyScheme, SigScheme.hash, toyHash, List.cons.injEq, true_and] at hab
  have := packL_injective hab
  calc a = String.mk a.toList := rfl
    _ = String.mk b.toList := by rw [this]
    _ = b := rfl

theorem toyScheme_signBytes : toyScheme.SignBytes := by
  intro k d b hb
  simp only [toyScheme, SigScheme.sign, toySign, List.mem_cons, List.mem_map] at hb
  rcases hb with rfl | ⟨x, _, rfl⟩
  · omega
  · omega

theorem toyScheme_signNonempty : toyScheme.SignNonempty := by
  intro k d
  simp [toyScheme, SigScheme.sign, toySign]

/-! ### Errors of `pkg/authclient` (`errors.go`)

Sentinel errors wrapped with `%w` are modelled by dedicated constructors;
`wrap ctx e` models `fmt.Errorf(ctx + ": %w", e)`.  `errIsNetworkError`,
`errIsUnauthorized` and `errAsHTTPStatus` model `errors.Is` /
`errors.As` walks through the `Unwrap` chain (an `HTTPError` unwraps to
its base sentinel). -/

inductive BaseErr
  | badRequest
  | unauthorized
  | notFound
  | internalServer
  | genericHTTP (status : Int)
deriving DecidableEq

inductive AuthError
  | invalidConfig (message : String)
  | invalidPrivateKey
  | networkError
  | httpError (statusCode : Int) (message : String) (base : Option BaseErr)
  | unauthorizedMsg (message : String)
  | decodeError (message : String)
  | readError
  | cryptoErr (e : CryptoErr)
  | wrap (context : String) (inner : AuthError)
deriving DecidableEq

def errIsNetworkError : AuthError → Bool
  | .networkError => true
  | .wrap _ inner => errIsNetworkError inner
  | _ => false

def errAsHTTPStatus : AuthError → Option Int
  | .httpError statusCode _ _ => some statusCode
  | .wrap _ inner => errAsHTTPStatus inner
  | _ => none

def errIsUnauthorized : AuthError → Bool
  | .unauthorizedMsg _ => true
  | .httpError _ _ (some .unauthorized) => true
  | .wrap _ inner => errIsUnauthorized inner
  | _ => false

/-! ### Client construction (`auth.go`, `NewClient`)

`time.Duration` values are `Int` nanoseconds.  Go's `http.Client` is
modelled with its four fields; the three non-timeout fields are opaque
handles.  The caller-supplied `*http.Client` is aliased by the
constructed client, so the mutation `httpClient.Timeout = timeout` in
the source is visible on the caller's object; in this pure embedding the
constructed client's `httpClient` value is that shared object's state
after construction. -/

def secondNs : Int := 1000000000

structure GoHTTPClient where
  transport : Option Nat
  checkRedirect : Option Nat
  jar : Option Nat
  timeout : Int
deriving DecidableEq

/-- Go's `&http.Client{}`: all fields zero. -/
def zeroGoHTTPClient : GoHTTPClient :=
  { transport := none, checkRedirect := none, jar := none, timeout := 0 }

structure ClientConfig where
  baseURL : String
  clientID : String
  privateKey : Option RSAPrivateKey
  httpClient : Option GoHTTPClient
  timeout : Int
  secretKeys : List String
  repoUrl : String
  grpcEndpoint : String
  includeRepoList : Bool
  tunnelUrl : String

structure Client where
  baseURL : String
  clientID : String
  privateKey : Option RSAPrivateKey
  httpClient : GoHTTPClient
  timeout : Int
  maxRetries : Int
  retryBackoff : Int
  secretKeys : List String
  repoUrl : String
  grpcEndpoint : String
deriving DecidableEq

/-- Model of `strings.TrimSuffix(s, "/")`: removes one trailing slash. -/
def trimTrailingSlash (s : String) : String :=
  if s.toList.getLast? = some '/' then String.mk s.toList.dropLast else s

/-- Model of `NewClient`.  The non-HTTPS warning in the source is printed
to `io.Discard` and has no observable effect, so it does not appear
here; it never aborts construction. -/
def newClient (cfg : ClientConfig) : Except AuthError Client :=
  if cfg.baseURL = "" then .error (.invalidConfig "baseURL is required")
  else if cfg.clientID = "" then .error (.invalidConfig "clientID is required")
  else
    match cfg.privateKey with
    | none => .error (.invalidConfig "privateKey is required")
    | some pk =>
      let httpClient0 :=
        match cfg.httpClient with
        | none => zeroGoHTTPClient
        | some hc => hc
      let timeout := if cfg.timeout = 0 then 30 * secondNs else cfg.timeout
      let httpClient := { httpClient0 with timeout := timeout }
      .ok {
        baseURL := trimTrailingSlash cfg.baseURL
        clientID := cfg.clientID
        privateKey := some pk
        httpClient := httpClient
        timeout := timeout
        maxRetries := 0
        retryBackoff := 2 * secondNs
        secretKeys := cfg.secretKeys
        repoUrl := cfg.repoUrl
        grpcEndpoint := cfg.grpcEndpoint }

/-- Model of `Client.SetRetry`. -/
def setRetry (c : Client) (maxRetries : Int) (backoff : Int) : Client :=
  { c with maxRetries := maxRetries, retryBackoff := backoff }

/-! ### Wire data (`types.go`) -/

structure ChallengeResponse where
  challenge : String
  expiresAt : Int
deriving DecidableEq

structure VerifyRequest where
  clientId : String
  challenge : String
  signature : String
  repoUrl : String
  grpcEndpoint : String
  includeRepoList : Bool
  tunnelUrl : String
deriving DecidableEq

structure VerifyResponse where
  success : Bool
  token : String
  secretData : List (String × String)
  repoList : List String
  error : String
deriving DecidableEq

/-! ### The network oracle

A `World` scripts, for each endpoint, the outcome of the i-th request:
a transport failure (`netErr`, Go: `httpClient.Do` returns an error), a
failure while reading the response body (`readErr`), or an HTTP exchange
with a status code, the parse of the body as an error response, and the
parse of the body as the endpoint's success type (`none` when the body
does not decode).  The `World` also records the observable effects of a
run: how many requests each endpoint received, the verify request
payloads sent, and the sleeps performed. -/

inductive ErrBodyParse
  | undecodable (raw : String)
  | decoded (errMsg : String)
deriving DecidableEq

structure HTTPExchange (α : Type) where
  statusCode : Int
  errBody : ErrBodyParse
  okBody : Option α

inductive ReqOutcome (α : Type)
  | netErr
  | readErr
  | resp (r : HTTPExchange α)

structure World where
  challengeScript : Nat → ReqOutcome ChallengeResponse
  verifyScript : Nat → ReqOutcome VerifyResponse
  challengeCount : Nat
  verifyCount : Nat
  verifySent : List VerifyRequest
  sleeps : List Int

/-- Model of `time.Sleep(d)`: the slept duration is recorded. -/
def sleepW (w : World) (d : Int) : World :=
  { w with sleeps := w.sleeps ++ [d] }

/-- Model of `handleHTTPError`: if the body parses as an error response,
the `HTTPError` carries the parsed message and a status-dependent base
sentinel; otherwise it carries the raw body and no base. -/
def baseErrFor (statusCode : Int) : BaseErr :=
  if statusCode = 400 then .badRequest
  else if statusCode = 401 then .unauthorized
  else if statusCode = 404 then .notFound
  else if statusCode = 500 then .internalServer
  else .genericHTTP statusCode

def handleHTTPError (statusCode : Int) (body : ErrBodyParse) : AuthError :=
  match body with
  | .undecodable raw => .httpError statusCode raw none
  | .decoded msg => .httpError statusCode msg (some (baseErrFor statusCode))

/-- Model of `isRetryable`: network errors, 5xx and 429 are retryable. -/
def isRetryable (e : AuthError) : Bool :=
  if errIsNetworkError e then true
  else
    match errAsHTTPStatus e with
    | some statusCode => (decide (500 ≤ statusCode) && decide (statusCode < 600)) || statusCode = 429
    | none => false

/-- Model of `RequestChallenge` against the oracle. -/
def requestChallengeM (w : World) : World × Except AuthError ChallengeResponse :=
  let w' := { w with challengeCount := w.challengeCount + 1 }
  match w.challengeScript w.challengeCount with
  | .netErr => (w', .error .networkError)
  | .readErr => (w', .error .readError)
  | .resp r =>
    if r.statusCode ≠ 200 then (w', .error (handleHTTPError r.statusCode r.errBody))
    else
      match r.okBody with
      | none => (w', .error (.decodeError "failed to parse response"))
      | some body => (w', .ok body)

/-- The verify request built by `VerifySignature` (`auth.go`).  The
struct literal in the source sets `ClientID`, `Challenge`, `Signature`,
`RepoUrl` and `GrpcEndpoint` only; the remaining fields of
`VerifyRequest` keep their Go zero values. -/
def buildVerifyRequest (c : Client) (challenge signature : String) : VerifyRequest :=
  { clientId := c.clientID
    challenge := challenge
    signature := signature
    repoUrl := c.repoUrl
    grpcEndpoint := c.grpcEndpoint
    includeRepoList := false
    tunnelUrl := "" }

/-- Go map read (`m[k]`), first binding wins. -/
def mapLookup (m : List (String × String)) (k : String) : Option String :=
  match m with
  | [] => none
  | (k', v) :: rest => if k' = k then some v else mapLookup rest k

/-- The `SecretKeys` filtering loop of `VerifySignature`: keep exactly the
configured keys that are present in the response map. -/
def filterSecrets (keys : List String) (m : List (String × String)) : List (String × String) :=
  match keys with
  | [] => []
  | k :: rest =>
    match mapLookup m k with
    | some v => (k, v) :: filterSecrets rest m
    | none => filterSecrets rest m

/-- Model of `VerifySignature` against the oracle: send the request, map
transport/read/status/parse failures as the source does, fail with the
`ErrUnauthorized` sentinel when the server reports `success=false`, and
filter the secret map when a non-empty key filter is configured. -/
def verifySignatureM (c : Client) (w : World) (challenge signature : String) :
    World × Except AuthError VerifyResponse :=
  let req := buildVerifyRequest c challenge signature
  let w' := { w with verifyCount := w.verifyCount + 1, verifySent := w.verifySent ++ [req] }
  match w.verifyScript w.verifyCount with
  | .netErr => (w', .error .networkError)
  | .readErr => (w', .error .readError)
  | .resp r =>
    if r.statusCode ≠ 200 then (w', .error (handleHTTPError r.statusCode r.errBody))
    else
      match r.okBody with
      | none => (w', .error (.decodeError "failed to parse response"))
      | some body =>
        if body.success = false then (w', .error (.unauthorizedMsg body.error))
        else if 0 < c.secretKeys.length then
          (w', .ok { body with secretData := filterSecrets c.secretKeys body.secretData })
        else (w', .ok body)

/-- Model of the client's `signChallenge`: nil-key check, then delegate
to `crypto.SignChallenge` with the held key. -/
def clientSignChallenge (S : SigScheme) (c : Client) (challenge : String) :
    Except AuthError String :=
  match c.privateKey with
  | none => .error .invalidPrivateKey
  | some pk =>
    match cryptoSignChallenge S (some pk) challenge with
    | .error e => .error (.wrap "failed to sign challenge" (.cryptoErr e))
    | .ok signature => .ok signature

/-- Model of `authenticateWithRetry`.  The attempt budget is a `Nat`;
Go's guard `retriesLeft > 0 && c.isRetryable(err)` is rendered as a
match on the budget (`retriesLeft > 0` gives the predecessor `m`)
followed by the retryability test.  (`authenticateWithRetry` below
bridges Go's `int` budget: for a negative budget the Go guard is false
exactly as for 0.) -/
def authenticateWithRetryN (S : SigScheme) (c : Client) :
    Nat → World → World × Except AuthError VerifyResponse
  | retriesLeft, w =>
    match requestChallengeM w with
    | (w1, .error e) =>
      match retriesLeft with
      | m + 1 =>
        if isRetryable e then authenticateWithRetryN S c m (sleepW w1 c.retryBackoff)
        else (w1, .error (.wrap "failed to request challenge" e))
      | 0 => (w1, .error (.wrap "failed to request challenge" e))
    | (w1, .ok challengeResp) =>
      match clientSignChallenge S c challengeResp.challenge with
      | .error e => (w1, .error (.wrap "failed to sign challenge" e))
      | .ok signature =>
        match verifySignatureM c w1 challengeResp.challenge signature with
        | (w2, .error e) =>
          match retriesLeft with
          | m + 1 =>
            if isRetryable e then authenticateWithRetryN S c m (sleepW w2 c.retryBackoff)
            else (w2, .error (.wrap "failed to verify signature" e))
          | 0 => (w2, .error (.wrap "failed to verify signature" e))
        | (w2, .ok verifyResp) => (w2, .ok verifyResp)

def authenticateWithRetry (S : SigScheme) (c : Client) (retriesLeft : Int) (w : World) :
    World × Except AuthError VerifyResponse :=
  authenticateWithRetryN S c retriesLeft.toNat w

/-- Model of `Authenticate`: run the three-step flow with the configured
retry budget. -/
def authenticate (S : SigScheme) (c : Client) (w : World) :
    World × Except AuthError VerifyResponse :=
  authenticateWithRetry S c c.maxRetries w

/-! ### Access gate (model of `pkg/authmiddleware`)

An inbound request is its method, URL path and headers (looked up by
exact canonical name, value `""` when absent, as `Header.Get` yields).
The decision is either to forward to the next handler or to terminate
with a status code and message. -/

structure HTTPRequest where
  method : String
  path : String
  headers : List (String × String)

def headerGet (r : HTTPRequest) (name : String) : String :=
  match r.headers.lookup name with
  | some v => v
  | none => ""

inductive GateResult
  | forward
  | reject (status : Nat) (message : String)
deriving DecidableEq

structure GateConfig where
  getAccessToken : Unit → String
  whitelistPaths : List String
  requireTunnel : Bool

/-- Model of `strings.HasPrefix`. -/
def strHasPrefixOf (s pre : String) : Bool :=
  pre.toList.isPrefixOf s.toList

/-- Model of `isWhitelisted`: exact match or prefix match. -/
def isWhitelisted (cfg : GateConfig) (path : String) : Bool :=
  cfg.whitelistPaths.any (fun wp => path == wp || strHasPrefixOf path wp)

/-- Model of `isFromCloudflare`: the `Cloudflare-Cdn-Loop` header is
present and non-empty. -/
def isFromCloudflare (r : HTTPRequest) : Bool :=
  headerGet r "Cloudflare-Cdn-Loop" != ""

/-- Model of `strings.SplitN(s, " ", 2)`: split at the first space only. -/
def splitFirstSpace (cs : List Char) : List Char × Option (List Char) :=
  match cs with
  | [] => ([], none)
  | c :: rest =>
    if c = ' ' then ([], some rest)
    else
      let (pre, post) := splitFirstSpace rest
      (c :: pre, post)

def splitN2Space (s : String) : List String :=
  match splitFirstSpace s.toList with
  | (pre, none) => [String.mk pre]
  | (pre, some post) => [String.mk pre, String.mk post]

/-- Model of `TunnelAuthMiddleware.Middleware`, rule by rule in source
order: OPTIONS bypass, whitelist bypass, tunnel-origin check, missing
header, header format, empty expected token, token comparison. -/
def tunnelAuthMiddleware (cfg : GateConfig) (r : HTTPRequest) : GateResult :=
  if r.method = "OPTIONS" then .forward
  else if isWhitelisted cfg r.path then .forward
  else if cfg.requireTunnel && !isFromCloudflare r then
    .reject 403 "Access denied: not from Cloudflare Tunnel"
  else
    let authHeader := headerGet r "Authorization"
    if authHeader = "" then .reject 401 "Authorization header required"
    else
      let parts := splitN2Space authHeader
      if parts.length ≠ 2 ∨ parts.getD 0 "" ≠ "Bearer" then
        .reject 401 "Invalid authorization header format"
      else
        let token := parts.getD 1 ""
        let expectedToken := cfg.getAccessToken ()
        if expectedToken = "" then .reject 500 "Server authentication not initialized"
        else if token ≠ expectedToken then .reject 401 "Invalid access token"
        else .forward

/-- Split a character list at every space. -/
def splitSpacesL : List Char → List (List Char)
  | [] => [[]]
  | c :: rest =>
    if c = ' ' then [] :: splitSpacesL rest
    else
      match splitSpacesL rest with
      | [] => [[c]]
      | seg :: segs => (c :: seg) :: segs

/-- The claim-side reading of "space-separated parts": the full split of
the header at every space (this is not what the source computes; see the
theorems about the header format). -/
def spaceSeparatedParts (s : String) : List String :=
  (splitSpacesL s.toList).map String.mk

/-! ### Basic facts about the protocol operations -/

theorem requestChallengeM_fst (w : World) :
    (requestChallengeM w).1 = { w with challengeCount := w.challengeCount + 1 } := by
  unfold requestChallengeM
  rcases w.challengeScript w.challengeCount with _ | _ | r
  · rfl
  · rfl
  · dsimp only
    split
    · rfl
    · rcases r.okBody with _ | b <;> rfl

theorem verifySignatureM_fst (c : Client) (w : World) (challenge signature : String) :
    (verifySignatureM c w challenge signature).1 =
      { w with verifyCount := w.verifyCount + 1,
               verifySent := w.verifySent ++ [buildVerifyRequest c challenge signature] } := by
  unfold verifySignatureM
  rcases w.verifyScript w.verifyCount with _ | _ | r
  · rfl
  · rfl
  · dsimp only
    split
    · rfl
    · rcases r.okBody with _ | b
      · rfl
      · dsimp only
        split
        · rfl
        · split
          · rfl
          · rfl

/-! ### Concrete fixtures used by witnesses and counterexamples -/

def defaultClient : Client :=
  { baseURL := "", clientID := "", privateKey := none, httpClient := zeroGoHTTPClient,
    timeout := 0, maxRetries := 0, retryBackoff := 0, secretKeys := [], repoUrl := "",
    grpcEndpoint := "" }

def cfgA : ClientConfig :=
  { baseURL := "http://example.com/", clientID := "cid", privateKey := some ⟨0⟩,
    httpClient := some { transport := some 7, checkRedirect := some 8, jar := some 9, timeout := 99 },
    timeout := 0, secretKeys := [], repoUrl := "", grpcEndpoint := "",
    includeRepoList := false, tunnelUrl := "" }

def cfgAClient : Client :=
  match newClient cfgA with
  | .ok c => c
  | .error _ => defaultClient

def c5Cfg : ClientConfig :=
  { baseURL := "https://worker.example", clientID := "client-1", privateKey := some ⟨3⟩,
    httpClient := none, timeout := 0, secretKeys := [], repoUrl := "https://github.com/o/r",
    grpcEndpoint := "grpc.example:50051", includeRepoList := true, tunnelUrl := "" }

def c5Client : Client :=
  match newClient c5Cfg with
  | .ok c => c
  | .error _ => defaultClient

/-! ### Claim theorems -/

/-- C7: `NewClient` fails with the `InvalidConfig` error class exactly
when the base endpoint is empty, the client identifier is empty, or the
signing key is absent; it succeeds in every other case (in particular a
non-secure endpoint never aborts construction); on success the stored
endpoint is the configured one with a trailing slash trimmed, the
timeout defaults to 30 seconds when none is given, and the retry count
defaults to 0. -/
theorem c7_construct :
    (∀ cfg : ClientConfig, (∃ m, newClient cfg = .error (.invalidConfig m)) ↔
        (cfg.baseURL = "" ∨ cfg.clientID = "" ∨ cfg.privateKey = none)) ∧
    (∀ cfg : ClientConfig, (∃ c, newClient cfg = .ok c) ↔
        (cfg.baseURL ≠ "" ∧ cfg.clientID ≠ "" ∧ cfg.privateKey ≠ none)) ∧
    (∀ (cfg : ClientConfig) (c : Client), newClient cfg = .ok c →
        c.baseURL = trimTrailingSlash cfg.baseURL ∧
        c.timeout = (if cfg.timeout = 0 then 30 * secondNs else cfg.timeout) ∧
        c.httpClient.timeout = c.timeout ∧
        c.maxRetries = 0) := by
  refine ⟨?_, ?_, ?_⟩
  · intro cfg
    constructor
    · rintro ⟨m, hm⟩
      by_contra hcon
      push_neg at hcon
      obtain ⟨h1, h2, h3⟩ := hcon
      rcases hpk : cfg.privateKey with _ | pk
      · exact h3 hpk
      · simp [newClient, h1, h2, hpk] at hm
    · rintro (h | h | h)
      · exact ⟨"baseURL is required", by simp [newClient, h]⟩
      · by_cases h1 : cfg.baseURL = ""
        · exact ⟨"baseURL is required", by simp [newClient, h1]⟩
        · exact ⟨"clientID is required", by simp [newClient, h1, h]⟩
      · by_cases h1 : cfg.baseURL = ""
        · exact ⟨"baseURL is required", by simp [newClient, h1]⟩
        · by_cases h2 : cfg.clientID = ""
          · exact ⟨"clientID is required", by simp [newClient, h1, h2]⟩
          · exact ⟨"privateKey is required", by simp [newClient, h1, h2, h]⟩
  · intro cfg
    constructor
    · rintro ⟨c, hc⟩
      refine ⟨?_, ?_, ?_⟩
      · intro h1; simp [newClient, h1] at hc
      · intro h2
        by_cases h1 : cfg.baseURL = ""
        · simp [newClient, h1] at hc
        · simp [newClient, h1, h2] at hc
      · intro h3
        by_cases h1 : cfg.baseURL = ""
        · simp [newClient, h1] at hc
        · by_cases h2 : cfg.clientID = ""
          · simp [newClient, h1, h2] at hc
          · simp [newClient, h1, h2, h3] at hc
    · rintro ⟨h1, h2, h3⟩
      rcases hpk : cfg.privateKey with _ | pk
      · exact absurd hpk h3
      · cases hres : newClient cfg with
        | error e => exact absurd hres (by simp [newClient, h1, h2, hpk])
        | ok c => exact ⟨c, rfl⟩
  · intro cfg c hc
    by_cases h1 : cfg.baseURL = ""
    · simp [newClient, h1] at hc
    by_cases h2 : cfg.clientID = ""
    · simp [newClient, h1, h2] at hc
    rcases hpk : cfg.privateKey with _ | pk
    · simp [newClient, h1, h2, hpk] at hc
    · simp [newClient, h1, h2, hpk] at hc
      subst hc
      exact ⟨rfl, rfl, rfl, rfl⟩

/-- Witness for C7 at a concrete configuration: a non-HTTPS endpoint
with a trailing slash, no explicit timeout. -/
theorem c7_construct_witness :
    (∃ c, newClient cfgA = .ok c) ∧
    (cfgAClient.baseURL = trimTrailingSlash cfgA.baseURL ∧
     cfgAClient.timeout = (if cfgA.timeout = 0 then 30 * secondNs else cfgA.timeout) ∧
     cfgAClient.httpClient.timeout = cfgAClient.timeout ∧
     cfgAClient.maxRetries = 0) :=
  ⟨(c7_construct.2.1 cfgA).mpr ⟨by decide, by decide, by decide⟩,
   c7_construct.2.2 cfgA cfgAClient rfl⟩

/-- C10: when the caller supplies its own HTTP client object, the
constructed client holds that same object with its `Timeout` field
overwritten by the (possibly defaulted) timeout, and every other field
unchanged. -/
theorem c10_http_client_mutation :
    ∀ (cfg : ClientConfig) (h : GoHTTPClient) (c : Client),
      cfg.httpClient = some h → newClient cfg = .ok c →
      c.httpClient = { h with timeout := if cfg.timeout = 0 then 30 * secondNs else cfg.timeout } ∧
      c.httpClient.timeout = (if cfg.timeout = 0 then 30 * secondNs else cfg.timeout) ∧
      c.httpClient.transport = h.transport ∧
      c.httpClient.checkRedirect = h.checkRedirect ∧
      c.httpClient.jar = h.jar := by
  intro cfg h c hh hc
  by_cases h1 : cfg.baseURL = ""
  · simp [newClient, h1] at hc
  by_cases h2 : cfg.clientID = ""
  · simp [newClient, h1, h2] at hc
  rcases hpk : cfg.privateKey with _ | pk
  · simp [newClient, h1, h2, hpk] at hc
  · simp [newClient, h1, h2, hpk, hh] at hc
    subst hc
    exact ⟨rfl, rfl, rfl, rfl, rfl⟩

/-- Witness for C10: the caller's client had `Timeout = 99`; after
construction with no configured timeout it is 30 seconds, and the
opaque fields are untouched. -/
theorem c10_http_client_mutation_witness :
    cfgAClient.httpClient.timeout = (if cfgA.timeout = 0 then 30 * secondNs else cfgA.timeout) ∧
    cfgAClient.httpClient.transport = some 7 ∧
    cfgAClient.httpClient.checkRedirect = some 8 ∧
    cfgAClient.httpClient.jar = some 9 := by
  have h := c10_http_client_mutation cfgA
    { transport := some 7, checkRedirect := some 8, jar := some 9, timeout := 99 }
    cfgAClient rfl rfl
  exact ⟨h.2.1, h.2.2.1, h.2.2.2.1, h.2.2.2.2⟩

/-- C5 (amended): each verify call sends the client identifier, the
challenge, the signature, and the configured repository URL and gRPC
endpoint hint; the `includeRepoList` flag is NOT taken from the
configuration: the request always carries its zero value `false` (and
so the field is omitted on the wire by `omitempty`). -/
theorem c5_verify_request_fields :
    ∀ (cfg : ClientConfig) (c : Client) (challenge signature : String),
      newClient cfg = .ok c →
      (buildVerifyRequest c challenge signature).clientId = cfg.clientID ∧
      (buildVerifyRequest c challenge signature).challenge = challenge ∧
      (buildVerifyRequest c challenge signature).signature = signature ∧
      (buildVerifyRequest c challenge signature).repoUrl = cfg.repoUrl ∧
      (buildVerifyRequest c challenge signature).grpcEndpoint = cfg.grpcEndpoint ∧
      (buildVerifyRequest c challenge signature).includeRepoList = false ∧
      (buildVerifyRequest c challenge signature).tunnelUrl = "" ∧
      (∀ w : World, (verifySignatureM c w challenge signature).1.verifySent =
        w.verifySent ++ [buildVerifyRequest c challenge signature]) := by
  intro cfg c challenge signature hc
  by_cases h1 : cfg.baseURL = ""
  · simp [newClient, h1] at hc
  by_cases h2 : cfg.clientID = ""
  · simp [newClient, h1, h2] at hc
  rcases hpk : cfg.privateKey with _ | pk
  · simp [newClient, h1, h2, hpk] at hc
  · simp [newClient, h1, h2, hpk] at hc
    subst hc
    refine ⟨rfl, rfl, rfl, rfl, rfl, rfl, rfl, ?_⟩
    intro w
    rw [verifySignatureM_fst]

/-- Witness for C5's amended statement at a concrete configuration. -/
theorem c5_verify_request_fields_witness :
    (buildVerifyRequest c5Client "ch" "sig").clientId = c5Cfg.clientID ∧
    (buildVerifyRequest c5Client "ch" "sig").repoUrl = c5Cfg.repoUrl ∧
    (buildVerifyRequest c5Client "ch" "sig").grpcEndpoint = c5Cfg.grpcEndpoint ∧
    (buildVerifyRequest c5Client "ch" "sig").includeRepoList = false := by
  have h := c5_verify_request_fields c5Cfg c5Client "ch" "sig" rfl
  exact ⟨h.1, h.2.2.2.1, h.2.2.2.2.1, h.2.2.2.2.2.1⟩

/-- Counterexample for C5 as stated: the configuration asks for the
repository list (`includeRepoList = true`), construction succeeds, yet
the verify request built by `VerifySignature` carries
`includeRepoList = false` — the configured flag is never sent. -/
theorem c5_counterexample :
    c5Cfg.includeRepoList = true ∧
    newClient c5Cfg = .ok c5Client ∧
    (buildVerifyRequest c5Client "ch" "sig").includeRepoList = false :=
  ⟨rfl, rfl, rfl⟩

/-- C6: on a successful verify response, a non-empty configured filter
reduces the secret map to exactly the configured keys that the response
contains (missing filter keys are omitted without error, keys outside
the filter are dropped); an empty filter returns the map unchanged.
The second conjunct characterizes the filtered map pointwise; the third
is the concrete example from the specification. -/
theorem c6_secret_filter :
    (∀ (c : Client) (w : World) (challenge signature : String) r v,
        w.verifyScript w.verifyCount = .resp r → r.statusCode = 200 → r.okBody = some v →
        v.success = true →
        (verifySignatureM c w challenge signature).2 =
          .ok { v with secretData :=
            if c.secretKeys = [] then v.secretData
            else filterSecrets c.secretKeys v.secretData }) ∧
    (∀ (keys : List String) (m : List (String × String)) (k : String),
        mapLookup (filterSecrets keys m) k = if k ∈ keys then mapLookup m k else none) ∧
    filterSecrets ["API_KEY"] [("API_KEY", "a"), ("OTHER", "b")] = [("API_KEY", "a")] := by
  refine ⟨?_, ?_, by decide⟩
  · intro c w challenge signature r v hs h200 hbody hsucc
    unfold verifySignatureM
    rw [hs]
    dsimp only
    rw [if_neg (by rw [h200]; exact fun hne => hne rfl)]
    rw [hbody]
    dsimp only
    rw [if_neg (show ¬(v.success = false) by simp [hsucc])]
    rcases hk : c.secretKeys with _ | ⟨k, ks⟩
    · simp [hk]
    · simp [hk]
  · intro keys m k
    induction keys with
    | nil => simp [filterSecrets, mapLookup]
    | cons k' rest ih =>
      by_cases hk : k' = k
      · subst hk
        rcases hm : mapLookup m k' with _ | v
        · simp [filterSecrets, hm, ih]
        · simp [filterSecrets, hm, mapLookup]
      · have hk' : ¬k = k' := fun h => hk h.symm
        rcases hm : mapLookup m k' with _ | v
        · simp [filterSecrets, hm, ih, hk', List.mem_cons]
        · simp [filterSecrets, hm, mapLookup, hk, hk', ih, List.mem_cons]

/-- A response carrying `API_KEY` and `OTHER`. -/
def c6Response : VerifyResponse :=
  { success := true, token := "t", secretData := [("API_KEY", "a"), ("OTHER", "b")],
    repoList := [], error := "" }

def c6World : World :=
  { challengeScript := fun _ => ReqOutcome.netErr
    verifyScript := fun _ => ReqOutcome.resp
      { statusCode := 200, errBody := ErrBodyParse.undecodable "", okBody := some c6Response }
    challengeCount := 0
    verifyCount := 0
    verifySent := []
    sleeps := [] }

def c6Client : Client := { defaultClient with secretKeys := ["API_KEY"] }

/-- Witness for C6 at the specification's concrete example: filter
`["API_KEY"]` against a response holding `API_KEY` and `OTHER`. -/
theorem c6_secret_filter_witness :
    (verifySignatureM c6Client c6World "ch" "sig").2 =
      .ok { success := true, token := "t", secretData := [("API_KEY", "a")],
            repoList := [], error := "" } := by
  have h := c6_secret_filter.1 c6Client c6World "ch" "sig" _ c6Response rfl rfl rfl rfl
  rw [h]
  rfl

/-- A well-formed bearer header forces the raw header to be non-empty. -/
theorem authHeader_ne_empty_of_split {r : HTTPRequest} {t : String}
    (hsplit : splitN2Space (headerGet r "Authorization") = ["Bearer", t]) :
    headerGet r "Authorization" ≠ "" := by
  intro h0
  rw [h0] at hsplit
  have := congrArg List.length hsplit
  simp [splitN2Space, splitFirstSpace] at this

/-- C2: the gate decides in the source's order: OPTIONS requests are
always forwarded; whitelisted paths are forwarded unconditionally (no
credentials needed); with `RequireTunnel` set and no trusted-origin
marker the answer is 403 no matter what credentials were presented; a
well-formed bearer header whose token differs from the (non-empty)
expected token gets 401; an empty expected token from the supplier gets
500; a matching token is forwarded. -/
theorem c2_gate_decision :
    (∀ (cfg : GateConfig) (r : HTTPRequest), r.method = "OPTIONS" →
        tunnelAuthMiddleware cfg r = .forward) ∧
    (∀ (cfg : GateConfig) (r : HTTPRequest), r.method ≠ "OPTIONS" →
        isWhitelisted cfg r.path = true → tunnelAuthMiddleware cfg r = .forward) ∧
    (∀ (cfg : GateConfig) (r : HTTPRequest), r.method ≠ "OPTIONS" →
        isWhitelisted cfg r.path = false → cfg.requireTunnel = true →
        isFromCloudflare r = false →
        tunnelAuthMiddleware cfg r = .reject 403 "Access denied: not from Cloudflare Tunnel") ∧
    (∀ (cfg : GateConfig) (r : HTTPRequest) (t : String), r.method ≠ "OPTIONS" →
        isWhitelisted cfg r.path = false →
        (cfg.requireTunnel = false ∨ isFromCloudflare r = true) →
        splitN2Space (headerGet r "Authorization") = ["Bearer", t] →
        cfg.getAccessToken () ≠ "" → t ≠ cfg.getAccessToken () →
        tunnelAuthMiddleware cfg r = .reject 401 "Invalid access token") ∧
    (∀ (cfg : GateConfig) (r : HTTPRequest) (t : String), r.method ≠ "OPTIONS" →
        isWhitelisted cfg r.path = false →
        (cfg.requireTunnel = false ∨ isFromCloudflare r = true) →
        splitN2Space (headerGet r "Authorization") = ["Bearer", t] →
        cfg.getAccessToken () = "" →
        tunnelAuthMiddleware cfg r = .reject 500 "Server authentication not initialized") ∧
    (∀ (cfg : GateConfig) (r : HTTPRequest) (t : String), r.method ≠ "OPTIONS" →
        isWhitelisted cfg r.path = false →
        (cfg.requireTunnel = false ∨ isFromCloudflare r = true) →
        splitN2Space (headerGet r "Authorization") = ["Bearer", t] →
        t ≠ "" → cfg.getAccessToken () = t →
        tunnelAuthMiddleware cfg r = .forward) := by
  refine ⟨?_, ?_, ?_, ?_, ?_, ?_⟩
  · intro cfg r h1
    simp [tunnelAuthMiddleware, h1]
  · intro cfg r h1 h2
    simp [tunnelAuthMiddleware, h1, h2]
  · intro cfg r h1 h2 h3 h4
    simp [tunnelAuthMiddleware, h1, h2, h3, h4]
  · intro cfg r t h1 h2 h3 hsplit h5 h6
    have hne := authHeader_ne_empty_of_split hsplit
    have htun : ¬(cfg.requireTunnel && !isFromCloudflare r) = true := by
      rcases h3 with h | h <;> simp [h]
    simp [tunnelAuthMiddleware, h1, h2, htun, hne, hsplit, h5, h6]
  · intro cfg r t h1 h2 h3 hsplit h5
    have hne := authHeader_ne_empty_of_split hsplit
    have htun : ¬(cfg.requireTunnel && !isFromCloudflare r) = true := by
      rcases h3 with h | h <;> simp [h]
    simp [tunnelAuthMiddleware, h1, h2, htun, hne, hsplit, h5]
  · intro cfg r t h1 h2 h3 hsplit ht heq
    have hne := authHeader_ne_empty_of_split hsplit
    have htun : ¬(cfg.requireTunnel && !isFromCloudflare r) = true := by
      rcases h3 with h | h <;> simp [h]
    simp [tunnelAuthMiddleware, h1, h2, htun, hne, hsplit, heq, ht]

def c2CfgHealth : GateConfig :=
  { getAccessToken := fun _ => "right", whitelistPaths := ["/health"], requireTunnel := false }

def c2ReqHealth : HTTPRequest := { method := "GET", path := "/health", headers := [] }

def c2ReqWrong : HTTPRequest :=
  { method := "GET", path := "/api/x", headers := [("Authorization", "Bearer wrong")] }

def c2CfgTunnel : GateConfig :=
  { getAccessToken := fun _ => "right", whitelistPaths := [], requireTunnel := true }

def c2ReqGoodTok : HTTPRequest :=
  { method := "GET", path := "/api/x", headers := [("Authorization", "Bearer right")] }

def c2CfgEmptyTok : GateConfig :=
  { getAccessToken := fun _ => "", whitelistPaths := [], requireTunnel := false }

/-- Witness for C2 at the specification's four examples: `/health` with
no credentials against whitelist `["/health"]`; `Bearer wrong` against
expected `right`; `RequireTunnel` with a missing marker and a correct
bearer token; empty supplier result. -/
theorem c2_gate_decision_witness :
    tunnelAuthMiddleware c2CfgHealth c2ReqHealth = .forward ∧
    tunnelAuthMiddleware c2CfgHealth c2ReqWrong = .reject 401 "Invalid access token" ∧
    tunnelAuthMiddleware c2CfgTunnel c2ReqGoodTok =
      .reject 403 "Access denied: not from Cloudflare Tunnel" ∧
    tunnelAuthMiddleware c2CfgEmptyTok c2ReqWrong =
      .reject 500 "Server authentication not initialized" :=
  ⟨c2_gate_decision.2.1 c2CfgHealth c2ReqHealth (by decide) (by decide),
   c2_gate_decision.2.2.2.1 c2CfgHealth c2ReqWrong "wrong" (by decide) (by decide)
     (Or.inl rfl) (by decide) (by decide) (by decide),
   c2_gate_decision.2.2.1 c2CfgTunnel c2ReqGoodTok (by decide) (by decide) rfl (by decide),
   c2_gate_decision.2.2.2.2.1 c2CfgEmptyTok c2ReqWrong "wrong" (by decide) (by decide)
     (Or.inl rfl) (by decide) rfl⟩

/-- C3 (amended): a non-OPTIONS, non-whitelisted request passing the
trusted-origin check and carrying a non-empty Authorization header is
rejected with 401 when splitting the header at the FIRST space does not
yield exactly two parts with first part the literal `Bearer` (i.e. the
header contains no space, or its prefix before the first space is not
`Bearer`).  The token part itself may contain further spaces. -/
theorem c3_header_format :
    ∀ (cfg : GateConfig) (r : HTTPRequest), r.method ≠ "OPTIONS" →
      isWhitelisted cfg r.path = false →
      (cfg.requireTunnel = false ∨ isFromCloudflare r = true) →
      headerGet r "Authorization" ≠ "" →
      ((splitN2Space (headerGet r "Authorization")).length ≠ 2 ∨
       (splitN2Space (headerGet r "Authorization")).getD 0 "" ≠ "Bearer") →
      tunnelAuthMiddleware cfg r = .reject 401 "Invalid authorization header format" := by
  intro cfg r h1 h2 h3 hne hfmt
  have htun : ¬(cfg.requireTunnel && !isFromCloudflare r) = true := by
    rcases h3 with h | h <;> simp [h]
  simp only [tunnelAuthMiddleware, if_neg h1,
    if_neg (show ¬isWhitelisted cfg r.path = true by simp [h2]), if_neg htun, if_neg hne]
  rw [if_pos hfmt]

def c3WCfg : GateConfig :=
  { getAccessToken := fun _ => "right", whitelistPaths := [], requireTunnel := false }

def c3WReq : HTTPRequest :=
  { method := "GET", path := "/api/x", headers := [("Authorization", "Token abc")] }

/-- Witness for C3's amended statement: scheme `Token` instead of
`Bearer` is rejected with 401. -/
theorem c3_header_format_witness :
    tunnelAuthMiddleware c3WCfg c3WReq = .reject 401 "Invalid authorization header format" :=
  c3_header_format c3WCfg c3WReq (by decide) (by decide) (Or.inl rfl) (by decide)
    (Or.inr (by decide))

def c3Cfg : GateConfig :=
  { getAccessToken := fun _ => "a b", whitelistPaths := [], requireTunnel := false }

def c3Req : HTTPRequest :=
  { method := "GET", path := "/api/x", headers := [("Authorization", "Bearer a b")] }

/-- Counterexample for C3 as stated: the header `Bearer a b` has three
space-separated parts, so the claim requires a 401 rejection; the gate
splits at the first space only, reads token `a b`, and forwards the
request when the supplier's token is `a b`. -/
theorem c3_counterexample :
    headerGet c3Req "Authorization" = "Bearer a b" ∧
    (spaceSeparatedParts (headerGet c3Req "Authorization")).length = 3 ∧
    c3Cfg.getAccessToken () = "a b" ∧
    tunnelAuthMiddleware c3Cfg c3Req = .forward :=
  ⟨rfl, by decide, rfl, by decide⟩

/-- C8 (amended): the key check precedes the challenge check in both
`SignChallenge` and `VerifySignature`: an absent key always yields
`InvalidKey`; with a key present, an empty challenge yields
`EmptyInput`; `Verify` with key present, non-empty challenge and
non-empty signature yields `MalformedSignature` when the signature does
not decode in standard base64. -/
theorem c8_error_classes :
    ∀ S : SigScheme,
      (∀ challenge, cryptoSignChallenge S none challenge = .error .invalidKey) ∧
      (∀ pk, cryptoSignChallenge S (some pk) "" = .error .emptyInput) ∧
      (∀ challenge signatureB64,
          cryptoVerifySignature S none challenge signatureB64 = .error .invalidKey) ∧
      (∀ pk signatureB64,
          cryptoVerifySignature S (some pk) "" signatureB64 = .error .emptyInput) ∧
      (∀ pk challenge signatureB64, challenge ≠ "" → signatureB64 ≠ "" →
          base64Decode signatureB64 = none →
          cryptoVerifySignature S (some pk) challenge signatureB64 =
            .error .malformedSignature) := by
  intro S
  refine ⟨fun ch => rfl, fun pk => by simp [cryptoSignChallenge],
    fun ch s => rfl, fun pk s => by simp [cryptoVerifySignature], ?_⟩
  intro pk ch s hch hs hdec
  unfold cryptoVerifySignature
  dsimp only
  rw [if_neg hch, if_neg hs, hdec]

/-- Witness for C8's amended statement at concrete inputs, with the
non-base64 signature string `!!!`. -/
theorem c8_error_classes_witness :
    cryptoSignChallenge toyScheme none "x" = .error .invalidKey ∧
    cryptoSignChallenge toyScheme (some ⟨0⟩) "" = .error .emptyInput ∧
    cryptoVerifySignature toyScheme (some ⟨0⟩) "x" "!!!" = .error .malformedSignature := by
  have h := c8_error_classes toyScheme
  exact ⟨h.1 "x", h.2.1 ⟨0⟩, h.2.2.2.2 ⟨0⟩ "x" "!!!" (by decide) (by decide) (by decide)⟩

/-- Counterexample for C8 as stated: with the key absent AND the
challenge empty, both operations fail with `InvalidKey`, not with
`EmptyInput` as "fails with EmptyInput whenever the challenge is the
empty string, regardless of the other arguments" requires. -/
theorem c8_counterexample :
    cryptoSignChallenge toyScheme none "" = .error .invalidKey ∧
    cryptoVerifySignature toyScheme none "" "" = .error .invalidKey ∧
    CryptoErr.invalidKey ≠ CryptoErr.emptyInput :=
  ⟨rfl, rfl, by decide⟩

/-- C9 (amended): under the platform signature scheme's contract
(correctness, unforgeability for a valid key pair, collision-free
digests, byte-valued non-empty raw signatures), for every valid key
pair and non-empty challenge, verifying the produced signature against
the same challenge succeeds, and verifying it against any different
NON-EMPTY challenge fails with `SignatureMismatch`.  (For the empty
challenge the earlier `EmptyInput` check fires instead; see the
counterexample.) -/
theorem c9_sign_verify :
    ∀ S : SigScheme, S.Correct → S.Unforgeable → S.HashInjective → S.SignBytes →
      S.SignNonempty →
      ∀ (priv : RSAPrivateKey) (pub : RSAPublicKey), ValidKeyPair priv pub →
      ∀ ch ch' : String, ch ≠ "" → ch' ≠ "" → ch' ≠ ch →
      ∀ sig : String, cryptoSignChallenge S (some priv) ch = .ok sig →
        cryptoVerifySignature S (some pub) ch sig = .ok () ∧
        cryptoVerifySignature S (some pub) ch' sig = .error .signatureMismatch := by
  intro S hCor hUnf hInj hBytes hNonempty priv pub hpair ch ch' hch hch' hdiff sig hsig
  have hsigval : sig = base64Encode (S.sign priv (S.hash ch)) := by
    unfold cryptoSignChallenge at hsig
    dsimp only at hsig
    rw [if_neg hch] at hsig
    exact (Except.ok.inj hsig).symm
  subst hsigval
  have hne : base64Encode (S.sign priv (S.hash ch)) ≠ "" :=
    base64Encode_ne_empty _ (hNonempty priv (S.hash ch))
  have hdec : base64Decode (base64Encode (S.sign priv (S.hash ch))) =
      some (S.sign priv (S.hash ch)) :=
    base64_roundtrip _ (hBytes priv (S.hash ch))
  constructor
  · unfold cryptoVerifySignature
    dsimp only
    rw [if_neg hch, if_neg hne, hdec]
    simp [hCor priv pub hpair (S.hash ch)]
  · unfold cryptoVerifySignature
    dsimp only
    rw [if_neg hch', if_neg hne, hdec]
    rcases hver : S.verify pub (S.hash ch') (S.sign priv (S.hash ch)) with _ | _
    · simp [hver]
    · exact absurd (hInj (hUnf priv pub hpair ch ch' hver)) hdiff

def c9SigW : String := (cryptoSignChallenge toyScheme (some ⟨0⟩) "abc").toOption.getD ""

/-- Witness for C9's amended statement with the concrete scheme and the
challenges `abc` and `ab`. -/
theorem c9_sign_verify_witness :
    cryptoVerifySignature toyScheme (some ⟨0⟩) "abc" c9SigW = .ok () ∧
    cryptoVerifySignature toyScheme (some ⟨0⟩) "ab" c9SigW = .error .signatureMismatch :=
  c9_sign_verify toyScheme toyScheme_correct toyScheme_unforgeable toyScheme_hashInjective
    toyScheme_signBytes toyScheme_signNonempty ⟨0⟩ ⟨0⟩ rfl "abc" "ab" (by decide) (by decide)
    (by decide) c9SigW rfl

/-- Counterexample for C9 as stated: the empty string differs from the
signed challenge, yet verification against it fails with `EmptyInput`,
not `SignatureMismatch` as "for every challenge' different from the
signed challenge" requires. -/
theorem c9_counterexample :
    cryptoSignChallenge toyScheme (some ⟨0⟩) "abc" = .ok c9SigW ∧
    ("" : String) ≠ "abc" ∧
    cryptoVerifySignature toyScheme (some ⟨0⟩) "" c9SigW = .error .emptyInput ∧
    CryptoErr.emptyInput ≠ CryptoErr.signatureMismatch :=
  ⟨rfl, by decide, rfl, by decide⟩

/-! ### Retry-loop fixtures: a verifier answering 503 twice, then 200 -/

def c1World : World :=
  { challengeScript := fun i =>
      if i < 2 then ReqOutcome.resp
        { statusCode := 503, errBody := ErrBodyParse.decoded "unavailable", okBody := none }
      else ReqOutcome.resp
        { statusCode := 200, errBody := ErrBodyParse.undecodable "",
          okBody := some { challenge := "nonce-3", expiresAt := 0 } }
    verifyScript := fun _ => ReqOutcome.resp
      { statusCode := 200, errBody := ErrBodyParse.undecodable "",
        okBody := some { success := true, token := "tok", secretData := [], repoList := [],
                         error := "" } }
    challengeCount := 0
    verifyCount := 0
    verifySent := []
    sleeps := [] }

def c1ClientBase : Client := { defaultClient with privateKey := some ⟨0⟩ }

def c1Client2 : Client := setRetry c1ClientBase 2 (2 * secondNs)

def c1Client1 : Client := setRetry c1ClientBase 1 (2 * secondNs)

/-- C1: the retry policy of `Authenticate`.  (1) A failed challenge step
with a retryable error and remaining budget sleeps exactly the
configured backoff, consumes one attempt, and restarts the whole flow
from the challenge request; (2) with no budget or a non-retryable error
it returns at once; (3)/(4) the same at the verify step, so a new
challenge is fetched on the next attempt and a stale challenge is never
resubmitted; (5) a signing failure is never retried; (6) an error is
retryable exactly when it is the transport-level network error or an
HTTP error with status 500-599 or 429; (7) against a verifier whose
challenge endpoint answers 503, 503, then 200, `maxAttempts = 2`
succeeds after exactly 3 challenge requests with two backoff sleeps,
and `maxAttempts = 1` fails after exactly 2 challenge requests. -/
theorem c1_retry_policy :
    (∀ (S : SigScheme) (c : Client) (n : Nat) (w : World) (e : AuthError),
        (requestChallengeM w).2 = .error e → isRetryable e = true →
        authenticateWithRetryN S c (n + 1) w =
          authenticateWithRetryN S c n (sleepW (requestChallengeM w).1 c.retryBackoff)) ∧
    (∀ (S : SigScheme) (c : Client) (n : Nat) (w : World) (e : AuthError),
        (requestChallengeM w).2 = .error e → (n = 0 ∨ isRetryable e = false) →
        authenticateWithRetryN S c n w =
          ((requestChallengeM w).1, .error (.wrap "failed to request challenge" e))) ∧
    (∀ (S : SigScheme) (c : Client) (n : Nat) (w : World) (e : AuthError)
        (cr : ChallengeResponse) (sg : String),
        (requestChallengeM w).2 = .ok cr →
        clientSignChallenge S c cr.challenge = .ok sg →
        (verifySignatureM c (requestChallengeM w).1 cr.challenge sg).2 = .error e →
        isRetryable e = true →
        authenticateWithRetryN S c (n + 1) w =
          authenticateWithRetryN S c n
            (sleepW (verifySignatureM c (requestChallengeM w).1 cr.challenge sg).1
              c.retryBackoff)) ∧
    (∀ (S : SigScheme) (c : Client) (n : Nat) (w : World) (e : AuthError)
        (cr : ChallengeResponse) (sg : String),
        (requestChallengeM w).2 = .ok cr →
        clientSignChallenge S c cr.challenge = .ok sg →
        (verifySignatureM c (requestChallengeM w).1 cr.challenge sg).2 = .error e →
        (n = 0 ∨ isRetryable e = false) →
        authenticateWithRetryN S c n w =
          ((verifySignatureM c (requestChallengeM w).1 cr.challenge sg).1,
           .error (.wrap "failed to verify signature" e))) ∧
    (∀ (S : SigScheme) (c : Client) (n : Nat) (w : World) (e : AuthError)
        (cr : ChallengeResponse),
        (requestChallengeM w).2 = .ok cr →
        clientSignChallenge S c cr.challenge = .error e →
        authenticateWithRetryN S c n w =
          ((requestChallengeM w).1, .error (.wrap "failed to sign challenge" e))) ∧
    (∀ e : AuthError, isRetryable e = true ↔
        (errIsNetworkError e = true ∨
         ∃ code, errAsHTTPStatus e = some code ∧
           ((500 ≤ code ∧ code < 600) ∨ code = 429))) ∧
    ((authenticate toyScheme c1Client2 c1World).2 =
        .ok { success := true, token := "tok", secretData := [], repoList := [], error := "" } ∧
     (authenticate toyScheme c1Client2 c1World).1.challengeCount = 3 ∧
     (authenticate toyScheme c1Client2 c1World).1.sleeps = [2 * secondNs, 2 * secondNs] ∧
     (authenticate toyScheme c1Client1 c1World).2 =
        .error (.wrap "failed to request challenge"
          (.httpError 503 "unavailable" (some (.genericHTTP 503)))) ∧
     (authenticate toyScheme c1Client1 c1World).1.challengeCount = 2 ∧
     (authenticate toyScheme c1Client1 c1World).1.sleeps = [2 * secondNs]) := by
  refine ⟨?_, ?_, ?_, ?_, ?_, ?_, by rfl, by decide, by decide, by rfl, by decide,
    by decide⟩
  · intro S c n w e he hr
    have hsplit : requestChallengeM w = ((requestChallengeM w).1, .error e) := by rw [← he]
    rw [authenticateWithRetryN, hsplit]
    dsimp only
    rw [if_pos hr]
  · intro S c n w e he hcond
    have hsplit : requestChallengeM w = ((requestChallengeM w).1, .error e) := by rw [← he]
    rw [authenticateWithRetryN, hsplit]
    dsimp only
    rcases hcond with rfl | hr
    · rfl
    · rcases n with _ | m
      · rfl
      · simp [hr]
  · intro S c n w e cr sg hch hsign hver hr
    have hsplitc : requestChallengeM w = ((requestChallengeM w).1, .ok cr) := by rw [← hch]
    have hsplitv : verifySignatureM c (requestChallengeM w).1 cr.challenge sg =
        ((verifySignatureM c (requestChallengeM w).1 cr.challenge sg).1, .error e) := by
      rw [← hver]
    rw [authenticateWithRetryN, hsplitc]
    dsimp only
    rw [hsign]
    dsimp only
    rw [hsplitv]
    dsimp only
    rw [if_pos hr]
  · intro S c n w e cr sg hch hsign hver hcond
    have hsplitc : requestChallengeM w = ((requestChallengeM w).1, .ok cr) := by rw [← hch]
    have hsplitv : verifySignatureM c (requestChallengeM w).1 cr.challenge sg =
        ((verifySignatureM c (requestChallengeM w).1 cr.challenge sg).1, .error e) := by
      rw [← hver]
    rw [authenticateWithRetryN, hsplitc]
    dsimp only
    rw [hsign]
    dsimp only
    rw [hsplitv]
    dsimp only
    rcases hcond with rfl | hr
    · rfl
    · rcases n with _ | m
      · rfl
      · simp [hr]
  · intro S c n w e cr hch hsign
    have hsplitc : requestChallengeM w = ((requestChallengeM w).1, .ok cr) := by rw [← hch]
    rw [authenticateWithRetryN, hsplitc]
    dsimp only
    rw [hsign]
  · intro e
    unfold isRetryable
    cases hn : errIsNetworkError e with
    | true => simp [hn]
    | false =>
      rcases hs : errAsHTTPStatus e with _ | code
      · simp [hn, hs]
      · simp only [hn, Bool.false_eq_true, if_false, hs, Option.some.injEq]
        constructor
        · intro h
          refine Or.inr ⟨code, rfl, ?_⟩
          simp only [Bool.or_eq_true, Bool.and_eq_true, decide_eq_true_eq] at h
          tauto
        · rintro (h | ⟨code', hcode, h⟩)
          · simp at h
          · cases hcode
            simp only [Bool.or_eq_true, Bool.and_eq_true, decide_eq_true_eq]
            tauto

/-- Witness for C1's conditional parts: one retryable challenge failure
(the scripted 503) unfolds to one backoff sleep plus a restart. -/
theorem c1_retry_policy_witness :
    authenticateWithRetryN toyScheme c1Client2 3 c1World =
      authenticateWithRetryN toyScheme c1Client2 2
        (sleepW (requestChallengeM c1World).1 c1Client2.retryBackoff) :=
  c1_retry_policy.1 toyScheme c1Client2 2 c1World
    (.httpError 503 "unavailable" (some (.genericHTTP 503))) rfl rfl

/-! ### Fixtures for the `success=false` verify response -/

def c4World : World :=
  { challengeScript := fun _ => ReqOutcome.resp
      { statusCode := 200, errBody := ErrBodyParse.undecodable "",
        okBody := some { challenge := "nonce", expiresAt := 0 } }
    verifyScript := fun _ => ReqOutcome.resp
      { statusCode := 200, errBody := ErrBodyParse.undecodable "",
        okBody := some { success := false, token := "", secretData := [], repoList := [],
                         error := "bad signature" } }
    challengeCount := 0
    verifyCount := 0
    verifySent := []
    sleeps := [] }

def c4Client : Client :=
  { defaultClient with privateKey := some ⟨0⟩, maxRetries := 5, retryBackoff := 2 * secondNs }

def c4Sig : String := (clientSignChallenge toyScheme c4Client "nonce").toOption.getD ""

/-- C4: when the verify endpoint answers 200 with `success=false`, the
whole flow fails with the `ErrUnauthorized` sentinel carrying the
server's error string, immediately: whatever the remaining budget `n`,
the run performs exactly one challenge and one verify request, never
sleeps, and the error is classified non-retryable. -/
theorem c4_unauthorized_immediate :
    ∀ (S : SigScheme) (c : Client) (n : Nat) (w : World) (cr : ChallengeResponse)
      (sg : String) (r : HTTPExchange VerifyResponse) (v : VerifyResponse),
      (requestChallengeM w).2 = .ok cr →
      clientSignChallenge S c cr.challenge = .ok sg →
      (requestChallengeM w).1.verifyScript (requestChallengeM w).1.verifyCount = .resp r →
      r.statusCode = 200 → r.okBody = some v → v.success = false →
      authenticateWithRetryN S c n w =
        ((verifySignatureM c (requestChallengeM w).1 cr.challenge sg).1,
         .error (.wrap "failed to verify signature" (.unauthorizedMsg v.error))) ∧
      (verifySignatureM c (requestChallengeM w).1 cr.challenge sg).1.sleeps = w.sleeps ∧
      (verifySignatureM c (requestChallengeM w).1 cr.challenge sg).1.challengeCount =
        w.challengeCount + 1 ∧
      (verifySignatureM c (requestChallengeM w).1 cr.challenge sg).1.verifyCount =
        w.verifyCount + 1 ∧
      isRetryable (.unauthorizedMsg v.error) = false ∧
      errIsUnauthorized (.wrap "failed to verify signature" (.unauthorizedMsg v.error)) =
        true := by
  intro S c n w cr sg r v hch hsign hs h200 hbody hsucc
  have hw1 : (requestChallengeM w).1 = { w with challengeCount := w.challengeCount + 1 } :=
    requestChallengeM_fst w
  have hverify : (verifySignatureM c (requestChallengeM w).1 cr.challenge sg).2 =
      .error (.unauthorizedMsg v.error) := by
    unfold verifySignatureM
    rw [hs]
    dsimp only
    rw [if_neg (by rw [h200]; exact fun hne => hne rfl), hbody]
    dsimp only
    rw [if_pos hsucc]
  refine ⟨?_, ?_, ?_, ?_, rfl, rfl⟩
  · have hsplitc : requestChallengeM w = ((requestChallengeM w).1, .ok cr) := by rw [← hch]
    have hsplitv : verifySignatureM c (requestChallengeM w).1 cr.challenge sg =
        ((verifySignatureM c (requestChallengeM w).1 cr.challenge sg).1,
         .error (.unauthorizedMsg v.error)) := by rw [← hverify]
    rw [authenticateWithRetryN, hsplitc]
    dsimp only
    rw [hsign]
    dsimp only
    rw [hsplitv]
    dsimp only
    rcases n with _ | m
    · rfl
    · simp [isRetryable, errIsNetworkError, errAsHTTPStatus]
  · rw [verifySignatureM_fst, hw1]
  · rw [verifySignatureM_fst, hw1]
  · rw [verifySignatureM_fst, hw1]

/-- Witness for C4 at a concrete run with remaining budget 5. -/
theorem c4_unauthorized_immediate_witness :
    authenticateWithRetryN toyScheme c4Client 5 c4World =
      ((verifySignatureM c4Client (requestChallengeM c4World).1 "nonce" c4Sig).1,
       .error (.wrap "failed to verify signature" (.unauthorizedMsg "bad signature"))) ∧
    (verifySignatureM c4Client (requestChallengeM c4World).1 "nonce" c4Sig).1.sleeps =
      c4World.sleeps := by
  have h := c4_unauthorized_immediate toyScheme c4Client 5 c4World
    { challenge := "nonce", expiresAt := 0 } c4Sig _ _ rfl rfl rfl rfl rfl rfl
  exact ⟨h.1, h.2.1⟩

end GoAuth
